import Mathlib

/-!
Shallow embedding of the nearest-centroid event similarity matcher of
`src/ml/train_event_similarity_predictor.py` (the WOOD-6 predictor), together
with proofs about its behaviour.

Conventions of the embedding:
* Python floats are modelled as exact reals.
* The spatial fields are modelled at two levels.  The total model
  (`FeatureVec`, `custom_distance`, `EventSimilarityPredictor.predict`) reads
  a missing coordinate pair as `Option.none` and describes every state on
  which the source actually returns — that is, whenever no stored `None`
  coordinate meets a coordinate-bearing counterpart inside `np.isnan`.  The
  refined cell model (`PyCell`, `PyFeatureVec`, `custom_distancePy`,
  `predictPy`) distinguishes the float NaN that encodes a missing query
  coordinate from the Python object `None` that the centroid builder stores
  for an all-missing group, and models the `TypeError` that `np.isnan(None)`
  (or `radians(None)`) raises as `Except.error`; it exhibits the reachable
  crash of the source on such states.
* The `float('inf')` that initialises the running minimum of the
  nearest-centroid loop is modelled by `Option.none` in the accumulator; any
  real distance compares strictly below it, and it fails the final
  `min_distance <= threshold` test against any real threshold.
-/

namespace EventSim

/-- One labelled training activity as produced by `extract_simple_features`:
columns `day_of_year`, `distance_km`, `start_hour`, `start_lat`, `start_lng`
and the `event_name` label.  Missing coordinate cells are `none`. -/
structure Sample where
  event_name : String
  day_of_year : ℝ
  distance_km : ℝ
  start_hour : ℝ
  start_lat : Option ℝ
  start_lng : Option ℝ

/-- A 5-dimensional similarity feature vector (a query, or a centroid viewed
as a vector inside `predict`).  The source stores the spatial fields as floats
that are NaN when missing; they are jointly present or jointly absent, so they
are modelled as one optional pair `(start_lat, start_lng)`. -/
structure FeatureVec where
  day_of_year : ℝ
  distance_km : ℝ
  start_hour : ℝ
  coords : Option (ℝ × ℝ)

/-- Degrees to radians, as `math.radians`. -/
noncomputable def radians (x : ℝ) : ℝ := x * Real.pi / 180

/-- Two-argument arctangent `math.atan2 y x`: the argument of the complex
number `x + y i`. -/
noncomputable def atan2 (y x : ℝ) : ℝ := Complex.arg (x + y * Complex.I)

/-- `haversine_distance(lat1, lon1, lat2, lon2)`: great-circle distance in km
between two coordinate pairs in degrees, haversine formula, Earth radius
6371 km. -/
noncomputable def haversine_distance (lat1 lon1 lat2 lon2 : ℝ) : ℝ :=
  let R : ℝ := 6371
  let lat1r := radians lat1
  let lon1r := radians lon1
  let lat2r := radians lat2
  let lon2r := radians lon2
  let dlat := lat2r - lat1r
  let dlon := lon2r - lon1r
  let a := Real.sin (dlat / 2) ^ 2 +
    Real.cos lat1r * Real.cos lat2r * Real.sin (dlon / 2) ^ 2
  let c := 2 * atan2 (Real.sqrt a) (Real.sqrt (1 - a))
  R * c

/-- The fitted `StandardScaler` over the three temporal columns: per-column
centre (`mean_`) and scale (`scale_`). -/
structure Scaler where
  mean_day : ℝ
  mean_dist : ℝ
  mean_hour : ℝ
  scale_day : ℝ
  scale_dist : ℝ
  scale_hour : ℝ

/-- `scaler.transform` on one row of the three temporal features:
per-column `(value - mean) / scale`. -/
noncomputable def Scaler.transform (s : Scaler) (day dist hour : ℝ) : ℝ × ℝ × ℝ :=
  ((day - s.mean_day) / s.scale_day,
   (dist - s.mean_dist) / s.scale_dist,
   (hour - s.mean_hour) / s.scale_hour)

/-- Arithmetic mean of a list of reals (pandas `.mean()` over a column of
present values). -/
noncomputable def listMean (xs : List ℝ) : ℝ := xs.sum / xs.length

/-- Per-column scale computed by `StandardScaler.fit`: the population standard
deviation, with sklearn's internal zero guard (`_handle_zeros_in_scale`)
replacing a zero scale by 1. -/
noncomputable def scaleOf (xs : List ℝ) : ℝ :=
  let sd := Real.sqrt (listMean (xs.map (fun x => (x - listMean xs) ^ 2)))
  if sd = 0 then 1 else sd

/-- `self.scaler.fit(temporal_features)`: fit the scaler on the
`day_of_year`, `distance_km`, `start_hour` columns of the population. -/
noncomputable def fitScaler (data : List Sample) : Scaler :=
  { mean_day := listMean (data.map (fun s => s.day_of_year))
    mean_dist := listMean (data.map (fun s => s.distance_km))
    mean_hour := listMean (data.map (fun s => s.start_hour))
    scale_day := scaleOf (data.map (fun s => s.day_of_year))
    scale_dist := scaleOf (data.map (fun s => s.distance_km))
    scale_hour := scaleOf (data.map (fun s => s.start_hour)) }

/-- A stored event centroid: column-wise means of the event group plus the
sample count.  The `std_distance` entry of the source dictionary is a purely
diagnostic value never read back by the predictor and is not modelled. -/
structure Centroid where
  day_of_year : ℝ
  distance_km : ℝ
  start_hour : ℝ
  start_lat : Option ℝ
  start_lng : Option ℝ
  sample_count : Nat

/-- A spatial column mean: pandas `Series.mean()` (which skips missing
entries), guarded by the source to `None` when every entry is missing
(`... if not event_data['start_lat'].isna().all() else None`).  The result is
the mean over exactly the non-missing entries. -/
noncomputable def optMean (xs : List (Option ℝ)) : Option ℝ :=
  let present := xs.filterMap id
  if present = [] then none else some (present.sum / present.length)

/-- Number of samples carrying a given event label (one entry of
`features_df['event_name'].value_counts()`). -/
def countEvent (e : String) (data : List Sample) : Nat :=
  (data.filter (fun s => s.event_name = e)).length

/-- The distinct event labels with at least `min_samples` supporting samples
(`event_counts[event_counts >= min_samples].index`). -/
def wellDefinedEvents (data : List Sample) (min_samples : Nat) : List String :=
  ((data.map (fun s => s.event_name)).dedup).filter
    (fun e => min_samples ≤ countEvent e data)

/-- The centroid of one retained event group: column-wise means, with each
spatial mean taken over the non-missing subset and `none` when all samples of
the group lack that coordinate. -/
noncomputable def centroidOf (group : List Sample) : Centroid :=
  { day_of_year := listMean (group.map (fun s => s.day_of_year))
    distance_km := listMean (group.map (fun s => s.distance_km))
    start_hour := listMean (group.map (fun s => s.start_hour))
    start_lat := optMean (group.map (fun s => s.start_lat))
    start_lng := optMean (group.map (fun s => s.start_lng))
    sample_count := group.length }

/-- `compute_event_centroids(features_df, min_samples)`: group by event label,
discard groups with fewer than `min_samples` samples, and map each retained
event to the centroid of its group. -/
noncomputable def compute_event_centroids (data : List Sample) (min_samples : Nat) :
    List (String × Centroid) :=
  (wellDefinedEvents data min_samples).map
    (fun e => (e, centroidOf (data.filter (fun s => s.event_name = e))))

/-- Euclidean distance of the scaler-normalized three temporal dimensions:
the `temporal_dist` local of `custom_distance`. -/
noncomputable def temporalDistance (f1 f2 : FeatureVec) (scaler : Scaler) : ℝ :=
  let norm1 := scaler.transform f1.day_of_year f1.distance_km f1.start_hour
  let norm2 := scaler.transform f2.day_of_year f2.distance_km f2.start_hour
  Real.sqrt ((norm1.1 - norm2.1) ^ 2 + (norm1.2.1 - norm2.2.1) ^ 2 +
    (norm1.2.2 - norm2.2.2) ^ 2)

/-- `custom_distance(features1, features2, scaler)` in the total model: 50/50
blend of the normalized temporal Euclidean distance with the haversine
distance divided by the fixed 10 km reference scale when both vectors have
coordinates, and the temporal distance alone otherwise.  The source's
presence test is `not (np.isnan(lat1) or np.isnan(lat2))` on float inputs;
this total reading is faithful for NaN-encoded absence, but when a stored
`None` coordinate meets a real one the source raises `TypeError` instead of
taking either branch — see `custom_distancePy` for the faithful fallible
model of that path. -/
noncomputable def custom_distance (features1 features2 : FeatureVec) (scaler : Scaler) : ℝ :=
  let temporal_dist := temporalDistance features1 features2 scaler
  match features1.coords, features2.coords with
  | some (lat1, lon1), some (lat2, lon2) =>
    let coord_dist := haversine_distance lat1 lon1 lat2 lon2
    let coord_dist_norm := coord_dist / 10
    0.5 * temporal_dist + 0.5 * coord_dist_norm
  | _, _ => temporal_dist

/-- `EventSimilarityPredictor` state: the centroid mapping (an association
list in its iteration order), the fitted scaler, and the admission
threshold. -/
structure EventSimilarityPredictor where
  centroids : List (String × Centroid)
  scaler : Scaler
  distance_threshold : ℝ

/-- The module constant `MIN_SAMPLES_PER_EVENT = 3`. -/
def MIN_SAMPLES_PER_EVENT : Nat := 3

/-- The module constant `DISTANCE_THRESHOLD = 0.40`. -/
noncomputable def DISTANCE_THRESHOLD : ℝ := 0.40

/-- The five-feature vector that `predict` builds from a stored centroid, in
the total model: a stored `None` coordinate is read as a missing coordinate.
In the source, `centroid.get('start_lat', np.nan)` finds the key present in
every stored centroid, so a stored `None` passes through as the object
`None`, which crashes `np.isnan` when the query carries coordinates — see
`centroidVectorPy` for the faithful cell-level rendering. -/
def centroidVector (c : Centroid) : FeatureVec :=
  { day_of_year := c.day_of_year
    distance_km := c.distance_km
    start_hour := c.start_hour
    coords := match c.start_lat, c.start_lng with
      | some la, some ln => some (la, ln)
      | _, _ => none }

/-- The nearest-centroid search loop of `predict`: the accumulator carries
`(nearest_event, min_distance)` where `none` as the running minimum models the
initial `float('inf')`; a strictly smaller distance replaces the incumbent, so
an exact tie keeps the earlier centroid. -/
noncomputable def nearestLoop (scaler : Scaler) (fv : FeatureVec) :
    List (String × Centroid) → Option String × Option ℝ → Option String × Option ℝ
  | [], acc => acc
  | p :: rest, acc =>
    let d := custom_distance fv (centroidVector p.2) scaler
    match acc.2 with
    | none => nearestLoop scaler fv rest (some p.1, some d)
    | some m =>
      if d < m then nearestLoop scaler fv rest (some p.1, some d)
      else nearestLoop scaler fv rest acc

/-- `predict(features)`: run the nearest-centroid loop and gate the minimum
distance with the admission threshold.  A still-infinite minimum (empty
centroid set) fails `min_distance <= self.distance_threshold` against any real
threshold, so that case returns `(none, none, 0)` — the source's
`(None, float('inf'), 0.0)`. -/
noncomputable def EventSimilarityPredictor.predict (P : EventSimilarityPredictor)
    (features : FeatureVec) : Option String × Option ℝ × ℝ :=
  match nearestLoop P.scaler features P.centroids (none, none) with
  | (nearest_event, some min_distance) =>
    if min_distance ≤ P.distance_threshold then
      (nearest_event, some min_distance, 1 - min_distance / P.distance_threshold)
    else
      (none, some min_distance, 0)
  | (_, none) => (none, none, 0)

/-- `fit(features_df)`: recompute the centroid mapping with the default
minimum support and refit the scaler on the same population; the threshold
set at construction is untouched. -/
noncomputable def EventSimilarityPredictor.fit (P : EventSimilarityPredictor)
    (data : List Sample) : EventSimilarityPredictor :=
  { centroids := compute_event_centroids data MIN_SAMPLES_PER_EVENT
    scaler := fitScaler data
    distance_threshold := P.distance_threshold }

/-- One `predict` call seen as a state transformer: the method body reads
`self.centroids`, `self.scaler` and `self.distance_threshold` and performs no
attribute write, so the post-state is the input predictor. -/
noncomputable def predictStep (P : EventSimilarityPredictor) (fv : FeatureVec) :
    (Option String × Option ℝ × ℝ) × EventSimilarityPredictor :=
  (P.predict fv, P)

/-- `predict_batch(features_df)`: apply `predict` to each row in order,
threading the predictor state through the loop. -/
noncomputable def predict_batch (P : EventSimilarityPredictor) :
    List FeatureVec → List (Option String × Option ℝ × ℝ) × EventSimilarityPredictor
  | [] => ([], P)
  | fv :: rest =>
    let r := predictStep P fv
    let rs := predict_batch r.2 rest
    (r.1 :: rs.1, rs.2)

/-- One inference-time call against a fitted predictor. -/
inductive PredictorCall where
  | single (fv : FeatureVec)
  | batch (rows : List FeatureVec)

/-- Run a sequence of `predict` / `predict_batch` calls, threading the
predictor state, and return the final predictor state. -/
noncomputable def runCalls (P : EventSimilarityPredictor) :
    List PredictorCall → EventSimilarityPredictor
  | [] => P
  | PredictorCall.single fv :: rest => runCalls (predictStep P fv).2 rest
  | PredictorCall.batch rows :: rest => runCalls (predict_batch P rows).2 rest

/-- A Python object in a coordinate slot as `predict` and `custom_distance`
see it: a real float, the float NaN, or the object `None`.  The source uses
NaN for a missing query coordinate but stores the object `None` in a centroid
whose group had no coordinates at all, and the two behave differently under
`np.isnan`. -/
inductive PyCell where
  | val (x : ℝ)
  | nan
  | pynone

/-- `np.isnan` on one cell: `False` on a real, `True` on NaN, and a
`TypeError` on `None` (numpy's `isnan` ufunc has no loop for object
input). -/
def np_isnan : PyCell → Except Unit Bool
  | PyCell.val _ => Except.ok false
  | PyCell.nan => Except.ok true
  | PyCell.pynone => Except.error ()

/-- A 5-entry feature tuple in the refined cell model: the three temporal
entries are always real, each spatial entry is a cell. -/
structure PyFeatureVec where
  day_of_year : ℝ
  distance_km : ℝ
  start_hour : ℝ
  start_lat : PyCell
  start_lng : PyCell

/-- The `temporal_dist` computation of `custom_distance` in the cell model
(identical to `temporalDistance`: the temporal entries are plain reals). -/
noncomputable def temporalDistancePy (f1 f2 : PyFeatureVec) (scaler : Scaler) : ℝ :=
  let norm1 := scaler.transform f1.day_of_year f1.distance_km f1.start_hour
  let norm2 := scaler.transform f2.day_of_year f2.distance_km f2.start_hour
  Real.sqrt ((norm1.1 - norm2.1) ^ 2 + (norm1.2.1 - norm2.2.1) ^ 2 +
    (norm1.2.2 - norm2.2.2) ^ 2)

/-- `haversine_distance` on cells: the source first runs
`map(radians, [lat1, lon1, lat2, lon2])`, which raises `TypeError` if any
argument is the object `None`; a NaN argument propagates NaN through the
trigonometry; four reals give the real formula. -/
noncomputable def haversinePy : PyCell → PyCell → PyCell → PyCell → Except Unit PyCell
  | PyCell.val a, PyCell.val b, PyCell.val c, PyCell.val d =>
    Except.ok (PyCell.val (haversine_distance a b c d))
  | PyCell.pynone, _, _, _ => Except.error ()
  | _, PyCell.pynone, _, _ => Except.error ()
  | _, _, PyCell.pynone, _ => Except.error ()
  | _, _, _, PyCell.pynone => Except.error ()
  | _, _, _, _ => Except.ok PyCell.nan

/-- `custom_distance` in the refined cell model.  The presence test is
`not (np.isnan(lat1) or np.isnan(lat2))` with Python's short-circuit `or`:
`np.isnan` on the object `None` raises `TypeError` (`Except.error`), a NaN
latitude on either side takes the temporal-only branch, and two real
latitudes take the spatial branch, where a `None` longitude would likewise
raise inside `radians` and a NaN longitude makes the blended result NaN. -/
noncomputable def custom_distancePy (features1 features2 : PyFeatureVec)
    (scaler : Scaler) : Except Unit PyCell :=
  let temporal_dist := temporalDistancePy features1 features2 scaler
  match np_isnan features1.start_lat with
  | Except.error e => Except.error e
  | Except.ok b1 =>
    if b1 then Except.ok (PyCell.val temporal_dist)
    else
      match np_isnan features2.start_lat with
      | Except.error e => Except.error e
      | Except.ok b2 =>
        if b2 then Except.ok (PyCell.val temporal_dist)
        else
          match haversinePy features1.start_lat features1.start_lng
              features2.start_lat features2.start_lng with
          | Except.error e => Except.error e
          | Except.ok (PyCell.val r) =>
            Except.ok (PyCell.val (0.5 * temporal_dist + 0.5 * (r / 10)))
          | Except.ok _ => Except.ok PyCell.nan

/-- The centroid vector exactly as `predict` builds it:
`centroid.get('start_lat', np.nan)` finds the key present in every stored
centroid, so the `np.nan` default never fires and a stored `None` passes
through as the object `None`. -/
def centroidVectorPy (c : Centroid) : PyFeatureVec :=
  { day_of_year := c.day_of_year
    distance_km := c.distance_km
    start_hour := c.start_hour
    start_lat := match c.start_lat with
      | some x => PyCell.val x
      | none => PyCell.pynone
    start_lng := match c.start_lng with
      | some x => PyCell.val x
      | none => PyCell.pynone }

/-- The query vector `predict` builds from its `features` argument: a present
coordinate is a real, an absent one the float NaN
(`features.get('start_lat', np.nan)`). -/
def queryVectorPy (f : FeatureVec) : PyFeatureVec :=
  { day_of_year := f.day_of_year
    distance_km := f.distance_km
    start_hour := f.start_hour
    start_lat := match f.coords with
      | some (la, _) => PyCell.val la
      | none => PyCell.nan
    start_lng := match f.coords with
      | some (_, ln) => PyCell.val ln
      | none => PyCell.nan }

/-- The nearest-centroid loop in the refined cell model: a raised `TypeError`
aborts the scan; a NaN distance compares `False` against both the initial
`float('inf')` and any real incumbent under `dist < min_distance`, so it
never becomes the minimum. -/
noncomputable def nearestLoopPy (scaler : Scaler) (fv : PyFeatureVec) :
    List (String × Centroid) → Option String × Option ℝ →
      Except Unit (Option String × Option ℝ)
  | [], acc => Except.ok acc
  | p :: rest, acc =>
    match custom_distancePy fv (centroidVectorPy p.2) scaler with
    | Except.error e => Except.error e
    | Except.ok (PyCell.val x) =>
      match acc.2 with
      | none => nearestLoopPy scaler fv rest (some p.1, some x)
      | some m =>
        if x < m then nearestLoopPy scaler fv rest (some p.1, some x)
        else nearestLoopPy scaler fv rest acc
    | Except.ok _ => nearestLoopPy scaler fv rest acc

/-- `predict` in the refined cell model: a `TypeError` raised by the loop
propagates to the caller instead of a return. -/
noncomputable def predictPy (P : EventSimilarityPredictor) (fv : PyFeatureVec) :
    Except Unit (Option String × Option ℝ × ℝ) :=
  match nearestLoopPy P.scaler fv P.centroids (none, none) with
  | Except.error e => Except.error e
  | Except.ok (nearest_event, some min_distance) =>
    if min_distance ≤ P.distance_threshold then
      Except.ok (nearest_event, some min_distance,
        1 - min_distance / P.distance_threshold)
    else
      Except.ok (none, some min_distance, 0)
  | Except.ok (_, none) => Except.ok (none, none, 0)

/-- `atan2 y x` is non-negative whenever `y` is. -/
lemma atan2_nonneg (y x : ℝ) (hy : 0 ≤ y) : 0 ≤ atan2 y x := by
  unfold atan2
  rw [Complex.arg_nonneg_iff]
  simpa using hy

/-- The haversine distance is non-negative on all real inputs. -/
lemma haversine_nonneg (lat1 lon1 lat2 lon2 : ℝ) :
    0 ≤ haversine_distance lat1 lon1 lat2 lon2 := by
  simp only [haversine_distance]
  exact mul_nonneg (by norm_num)
    (mul_nonneg (by norm_num) (atan2_nonneg _ _ (Real.sqrt_nonneg _)))

/-- The normalized temporal Euclidean distance is non-negative. -/
lemma temporalDistance_nonneg (f1 f2 : FeatureVec) (s : Scaler) :
    0 ≤ temporalDistance f1 f2 s :=
  Real.sqrt_nonneg _

/-- `custom_distance` when both vectors carry coordinates. -/
lemma custom_distance_of_coords (f1 f2 : FeatureVec) (s : Scaler)
    (lat1 lon1 lat2 lon2 : ℝ)
    (h1 : f1.coords = some (lat1, lon1)) (h2 : f2.coords = some (lat2, lon2)) :
    custom_distance f1 f2 s =
      0.5 * temporalDistance f1 f2 s + 0.5 * (haversine_distance lat1 lon1 lat2 lon2 / 10) := by
  simp only [custom_distance, h1, h2]

/-- `custom_distance` when either vector lacks coordinates. -/
lemma custom_distance_of_missing (f1 f2 : FeatureVec) (s : Scaler)
    (h : f1.coords = none ∨ f2.coords = none) :
    custom_distance f1 f2 s = temporalDistance f1 f2 s := by
  rcases h with h | h
  · simp only [custom_distance, h]
  · rcases hc : f1.coords with _ | ⟨la, lo⟩ <;> simp only [custom_distance, h, hc]

/-- `custom_distance` is non-negative on all inputs. -/
lemma custom_distance_nonneg (f1 f2 : FeatureVec) (s : Scaler) :
    0 ≤ custom_distance f1 f2 s := by
  rcases h1 : f1.coords with _ | ⟨lat1, lon1⟩
  · rw [custom_distance_of_missing f1 f2 s (Or.inl h1)]
    exact temporalDistance_nonneg f1 f2 s
  · rcases h2 : f2.coords with _ | ⟨lat2, lon2⟩
    · rw [custom_distance_of_missing f1 f2 s (Or.inr h2)]
      exact temporalDistance_nonneg f1 f2 s
    · rw [custom_distance_of_coords f1 f2 s lat1 lon1 lat2 lon2 h1 h2]
      have hh : 0 ≤ haversine_distance lat1 lon1 lat2 lon2 / 10 :=
        div_nonneg (haversine_nonneg lat1 lon1 lat2 lon2) (by norm_num)
      have ht := temporalDistance_nonneg f1 f2 s
      linarith

/-- If every remaining distance is at least the incumbent minimum, the loop
keeps the incumbent (strict-`<` update). -/
lemma nearestLoop_keep (s : Scaler) (fv : FeatureVec) (e : String) (m : ℝ) :
    ∀ cs : List (String × Centroid),
      (∀ p ∈ cs, m ≤ custom_distance fv (centroidVector p.2) s) →
      nearestLoop s fv cs (some e, some m) = (some e, some m)
  | [], _ => rfl
  | p :: rest, h => by
    have hd : ¬ custom_distance fv (centroidVector p.2) s < m :=
      not_lt.mpr (h p (List.mem_cons_self p rest))
    simp only [nearestLoop]
    rw [if_neg hd]
    exact nearestLoop_keep s fv e m rest (fun q hq => h q (List.mem_cons_of_mem p hq))

/-- Running the loop over `pre ++ pc :: post` from an accumulator that is
either still infinite or strictly above `m` ends at `pc` when every element of
`pre` is strictly farther than `m` and every element of `post` at least as
far. -/
lemma nearestLoop_first (s : Scaler) (fv : FeatureVec) (pc : String × Centroid) (m : ℝ)
    (hd : custom_distance fv (centroidVector pc.2) s = m)
    (post : List (String × Centroid))
    (hpost : ∀ p ∈ post, m ≤ custom_distance fv (centroidVector p.2) s) :
    ∀ (pre : List (String × Centroid)) (acc : Option String × Option ℝ),
      (acc = (none, none) ∨ ∃ e' m', acc = (some e', some m') ∧ m < m') →
      (∀ p ∈ pre, m < custom_distance fv (centroidVector p.2) s) →
      nearestLoop s fv (pre ++ pc :: post) acc = (some pc.1, some m)
  | [], acc, hacc, _ => by
    rcases hacc with rfl | ⟨e', m', rfl, hm'⟩
    · simp only [List.nil_append, nearestLoop, hd]
      exact nearestLoop_keep s fv pc.1 m post hpost
    · have hlt : custom_distance fv (centroidVector pc.2) s < m' := by rw [hd]; exact hm'
      simp only [List.nil_append, nearestLoop]
      rw [if_pos hlt, hd]
      exact nearestLoop_keep s fv pc.1 m post hpost
  | q :: pre, acc, hacc, hpre => by
    have hq : m < custom_distance fv (centroidVector q.2) s :=
      hpre q (List.mem_cons_self q pre)
    have hpre' : ∀ p ∈ pre, m < custom_distance fv (centroidVector p.2) s :=
      fun p hp => hpre p (List.mem_cons_of_mem q hp)
    rcases hacc with rfl | ⟨e', m', rfl, hm'⟩
    · simp only [List.cons_append, nearestLoop]
      exact nearestLoop_first s fv pc m hd post hpost pre
        (some q.1, some (custom_distance fv (centroidVector q.2) s))
        (Or.inr ⟨q.1, _, rfl, hq⟩) hpre'
    · simp only [List.cons_append, nearestLoop]
      by_cases hlt : custom_distance fv (centroidVector q.2) s < m'
      · rw [if_pos hlt]
        exact nearestLoop_first s fv pc m hd post hpost pre
          (some q.1, some (custom_distance fv (centroidVector q.2) s))
          (Or.inr ⟨q.1, _, rfl, hq⟩) hpre'
      · rw [if_neg hlt]
        exact nearestLoop_first s fv pc m hd post hpost pre (some e', some m')
          (Or.inr ⟨e', m', rfl, hm'⟩) hpre'

/-- If the loop ends with a finite minimum, that minimum is either the
distance to one of the traversed centroids or was already in the
accumulator. -/
lemma nearestLoop_min_mem (s : Scaler) (fv : FeatureVec) :
    ∀ (cs : List (String × Centroid)) (acc : Option String × Option ℝ)
      (b : Option String) (m : ℝ),
      nearestLoop s fv cs acc = (b, some m) →
      (∃ p ∈ cs, custom_distance fv (centroidVector p.2) s = m) ∨ acc.2 = some m
  | [], acc, b, m, h => Or.inr (by have h' : acc = (b, some m) := h; rw [h'])
  | p :: rest, acc, b, m, h => by
    rcases hacc : acc.2 with _ | m0
    · simp only [nearestLoop, hacc] at h
      rcases nearestLoop_min_mem s fv rest _ b m h with hmem | hsnd
      · obtain ⟨q, hq, hdq⟩ := hmem
        exact Or.inl ⟨q, List.mem_cons_of_mem p hq, hdq⟩
      · simp only [Option.some_inj] at hsnd
        exact Or.inl ⟨p, List.mem_cons_self p rest, hsnd⟩
    · simp only [nearestLoop, hacc] at h
      by_cases hlt : custom_distance fv (centroidVector p.2) s < m0
      · rw [if_pos hlt] at h
        rcases nearestLoop_min_mem s fv rest _ b m h with hmem | hsnd
        · obtain ⟨q, hq, hdq⟩ := hmem
          exact Or.inl ⟨q, List.mem_cons_of_mem p hq, hdq⟩
        · simp only [Option.some_inj] at hsnd
          exact Or.inl ⟨p, List.mem_cons_self p rest, hsnd⟩
      · rw [if_neg hlt] at h
        rcases nearestLoop_min_mem s fv rest _ b m h with hmem | hsnd
        · obtain ⟨q, hq, hdq⟩ := hmem
          exact Or.inl ⟨q, List.mem_cons_of_mem p hq, hdq⟩
        · exact Or.inr (by rw [← hacc]; exact hsnd)

/-- Every non-empty list has a first element realizing its minimum under `f`:
everything before it is strictly larger, everything in the list at least as
large. -/
lemma exists_first_min {α : Type} (f : α → ℝ) :
    ∀ l : List α, l ≠ [] →
      ∃ pre x post, l = pre ++ x :: post ∧
        (∀ y ∈ pre, f x < f y) ∧ ∀ y ∈ l, f x ≤ f y
  | [], h => absurd rfl h
  | a :: t, _ => by
    rcases eq_or_ne t [] with ht | ht
    · subst ht
      refine ⟨[], a, [], rfl, by simp, ?_⟩
      intro y hy
      rcases List.mem_singleton.mp hy with rfl
      exact le_refl _
    · obtain ⟨pre, x, post, heq, hpre, hmin⟩ := exists_first_min f t ht
      by_cases hlt : f x < f a
      · refine ⟨a :: pre, x, post, by rw [heq]; rfl, ?_, ?_⟩
        · intro y hy
          rcases List.mem_cons.mp hy with rfl | hy
          · exact hlt
          · exact hpre y hy
        · intro y hy
          rcases List.mem_cons.mp hy with rfl | hy
          · exact le_of_lt hlt
          · exact hmin y hy
      · refine ⟨[], a, t, rfl, by simp, ?_⟩
        intro y hy
        rcases List.mem_cons.mp hy with rfl | hy
        · exact le_refl _
        · exact le_trans (not_lt.mp hlt) (hmin y hy)

/-- Characterization of the nearest-centroid loop on a non-empty centroid
list: it returns the first centroid attaining the minimum distance, together
with that minimum. -/
lemma nearestLoop_char (s : Scaler) (fv : FeatureVec) (cs : List (String × Centroid))
    (hne : cs ≠ []) :
    ∃ pre pc post, cs = pre ++ pc :: post ∧
      nearestLoop s fv cs (none, none) =
        (some pc.1, some (custom_distance fv (centroidVector pc.2) s)) ∧
      (∀ p ∈ cs, custom_distance fv (centroidVector pc.2) s ≤
        custom_distance fv (centroidVector p.2) s) ∧
      ∀ p ∈ pre, custom_distance fv (centroidVector pc.2) s <
        custom_distance fv (centroidVector p.2) s := by
  obtain ⟨pre, pc, post, heq, hpre, hmin⟩ :=
    exists_first_min (fun p => custom_distance fv (centroidVector p.2) s) cs hne
  refine ⟨pre, pc, post, heq, ?_, hmin, hpre⟩
  have hpost : ∀ p ∈ post, custom_distance fv (centroidVector pc.2) s ≤
      custom_distance fv (centroidVector p.2) s := by
    intro p hp
    exact hmin p (by rw [heq]; exact List.mem_append_right _ (List.mem_cons_of_mem _ hp))
  rw [heq]
  exact nearestLoop_first s fv pc _ rfl post hpost pre (none, none) (Or.inl rfl) hpre

/-- Unfolding `predict` once the loop result is known, finite-minimum case. -/
lemma predict_of_loop (P : EventSimilarityPredictor) (fv : FeatureVec)
    (b : Option String) (m : ℝ)
    (h : nearestLoop P.scaler fv P.centroids (none, none) = (b, some m)) :
    P.predict fv =
      if m ≤ P.distance_threshold then (b, some m, 1 - m / P.distance_threshold)
      else (none, some m, 0) := by
  unfold EventSimilarityPredictor.predict
  rw [h]

/-- Unfolding `predict` once the loop result is known, infinite-minimum
case. -/
lemma predict_of_loop_none (P : EventSimilarityPredictor) (fv : FeatureVec)
    (b : Option String)
    (h : nearestLoop P.scaler fv P.centroids (none, none) = (b, none)) :
    P.predict fv = (none, none, 0) := by
  unfold EventSimilarityPredictor.predict
  rw [h]

/-- A concrete scaler used in witnesses: zero centres, unit scales. -/
noncomputable def scalerW : Scaler := ⟨0, 0, 0, 1, 1, 1⟩

/-- A concrete coordinate-free query at the origin of the feature space. -/
def fvW : FeatureVec := ⟨0, 0, 0, none⟩

/-- A concrete coordinate-free centroid coinciding with `fvW`. -/
def cW : Centroid := ⟨0, 0, 0, none, none, 3⟩

/-- A concrete one-centroid predictor at the default threshold. -/
noncomputable def predW : EventSimilarityPredictor := ⟨[("City2Surf", cW)], scalerW, 0.4⟩

/-- The witness query sits exactly on the witness centroid. -/
lemma distW_eq_zero : custom_distance fvW (centroidVector cW) scalerW = 0 := by
  rw [custom_distance_of_missing _ _ _ (Or.inl rfl)]
  simp [temporalDistance, Scaler.transform, fvW, cW, centroidVector, scalerW]

/-- Total-model behaviour of `predict` on a non-empty centroid set (valid on
the states where the source's scan completes, i.e. without the stored-`None`
`TypeError` exhibited by `predictPy_none_centroid_crash`): `predict` computes
the composite distance to every stored centroid, selects the minimum `m`
(attained by a stored centroid), returns
`(nearest event, m, 1 - m / threshold)` when `m ≤ threshold` and
`(none, m, 0)` otherwise; the returned event is `none` with confidence `0`
exactly when `m` exceeds the threshold. -/
theorem predict_nearest_centroid_spec (P : EventSimilarityPredictor) (fv : FeatureVec)
    (hne : P.centroids ≠ []) :
    ∃ e c m, (e, c) ∈ P.centroids ∧
      custom_distance fv (centroidVector c) P.scaler = m ∧
      (∀ p ∈ P.centroids, m ≤ custom_distance fv (centroidVector p.2) P.scaler) ∧
      (m ≤ P.distance_threshold →
        P.predict fv = (some e, some m, 1 - m / P.distance_threshold)) ∧
      (P.distance_threshold < m → P.predict fv = (none, some m, 0)) ∧
      (((P.predict fv).1 = none ∧ (P.predict fv).2.2 = 0) ↔ P.distance_threshold < m) := by
  obtain ⟨pre, pc, post, heq, hloop, hmin, hpre⟩ := nearestLoop_char P.scaler fv P.centroids hne
  refine ⟨pc.1, pc.2, custom_distance fv (centroidVector pc.2) P.scaler,
    by rw [Prod.mk.eta, heq]; exact List.mem_append_right _ (List.mem_cons_self _ _),
    rfl, hmin, ?_, ?_, ?_⟩
  · intro hle
    rw [predict_of_loop P fv (some pc.1) _ hloop, if_pos hle]
  · intro hgt
    rw [predict_of_loop P fv (some pc.1) _ hloop, if_neg (not_le.mpr hgt)]
  · rcases le_or_lt (custom_distance fv (centroidVector pc.2) P.scaler)
      P.distance_threshold with hle | hgt
    · rw [predict_of_loop P fv (some pc.1) _ hloop, if_pos hle]
      constructor
      · rintro ⟨h1, -⟩
        simp at h1
      · intro h
        exact absurd hle (not_le.mpr h)
    · rw [predict_of_loop P fv (some pc.1) _ hloop, if_neg (not_le.mpr hgt)]
      exact ⟨fun _ => hgt, fun _ => ⟨rfl, rfl⟩⟩

/-- Concrete instance of the total-model analysis: the one-centroid predictor
at distance zero admits its event with confidence 1 (this also shows the
admitted-prediction antecedent of `confidence_bounds` is satisfiable). -/
theorem predict_nearest_centroid_spec_witness :
    predW.predict fvW = (some "City2Surf", some 0, 1) := by
  obtain ⟨e, c, m, hmem, hdist, hmin, hle, hgt, hiff⟩ :=
    predict_nearest_centroid_spec predW fvW (by simp [predW])
  have hec : e = "City2Surf" ∧ c = cW := by
    simpa [predW] using hmem
  obtain ⟨rfl, rfl⟩ := hec
  have hm0 : m = 0 := by
    rw [← hdist]
    exact distW_eq_zero
  subst hm0
  have hp := hle (by simp only [predW]; norm_num)
  rw [hp]
  norm_num

/-- Claim C2, evidence of the code bug: `predict` on a predictor whose
centroid set is empty — in particular any predictor before `fit` — silently
returns the default `(None, float('inf'), 0.0)` (modelled `(none, none, 0)`)
instead of surfacing an error. -/
theorem predict_empty_centroids_silent (s : Scaler) (t : ℝ) (fv : FeatureVec) :
    EventSimilarityPredictor.predict ⟨[], s, t⟩ fv = (none, none, 0) := rfl

/-- Total-model behaviour of the composite distance (valid for NaN-encoded
absence, where the source really does take one of the two branches; the
`None`-encoded absent vector instead crashes the source, see
`custom_distancePy_none_crash`): the 50/50 blend of the normalized temporal
Euclidean distance and the haversine distance divided by the 10 km reference
scale when both vectors carry coordinates, the temporal distance alone when
either lacks them, non-negative in both branches. -/
theorem custom_distance_cases_nonneg (f1 f2 : FeatureVec) (scaler : Scaler) :
    0 ≤ custom_distance f1 f2 scaler ∧
    ((f1.coords = none ∨ f2.coords = none) →
      custom_distance f1 f2 scaler = temporalDistance f1 f2 scaler) ∧
    ∀ lat1 lon1 lat2 lon2 : ℝ, f1.coords = some (lat1, lon1) →
      f2.coords = some (lat2, lon2) →
      custom_distance f1 f2 scaler =
        0.5 * temporalDistance f1 f2 scaler +
          0.5 * (haversine_distance lat1 lon1 lat2 lon2 / 10) :=
  ⟨custom_distance_nonneg f1 f2 scaler,
   custom_distance_of_missing f1 f2 scaler,
   fun lat1 lon1 lat2 lon2 h1 h2 =>
     custom_distance_of_coords f1 f2 scaler lat1 lon1 lat2 lon2 h1 h2⟩

/-- A concrete query with coordinates. -/
def gv1 : FeatureVec := ⟨1, 2, 3, some (1, 2)⟩

/-- A second concrete vector with coordinates. -/
def gv2 : FeatureVec := ⟨4, 5, 6, some (3, 4)⟩

/-- Concrete instance of the total-model branch equations and non-negativity
at concrete vectors. -/
theorem custom_distance_cases_nonneg_witness :
    0 ≤ custom_distance gv1 gv2 scalerW ∧
    custom_distance gv1 gv2 scalerW =
      0.5 * temporalDistance gv1 gv2 scalerW +
        0.5 * (haversine_distance 1 2 3 4 / 10) ∧
    custom_distance fvW gv2 scalerW = temporalDistance fvW gv2 scalerW :=
  ⟨(custom_distance_cases_nonneg gv1 gv2 scalerW).1,
   (custom_distance_cases_nonneg gv1 gv2 scalerW).2.2 1 2 3 4 rfl rfl,
   (custom_distance_cases_nonneg fvW gv2 scalerW).2.1 (Or.inl rfl)⟩

/-- Claim C4: with a positive minimum-support threshold `m`, an event label
appears in the centroid mapping iff it has at least `m` supporting samples —
so an event with exactly `m - 1` samples never appears and an event with
exactly `m` samples always does. -/
theorem compute_event_centroids_min_support (data : List Sample) (m : Nat) (e : String)
    (hm : 1 ≤ m) :
    e ∈ (compute_event_centroids data m).map Prod.fst ↔ m ≤ countEvent e data := by
  unfold compute_event_centroids
  rw [List.map_map]
  have hfst : (Prod.fst ∘ fun e =>
      (e, centroidOf (data.filter (fun s => s.event_name = e)))) = id := rfl
  rw [hfst, List.map_id]
  unfold wellDefinedEvents
  rw [List.mem_filter]
  constructor
  · rintro ⟨-, h⟩
    simpa using h
  · intro h
    refine ⟨?_, by simpa using h⟩
    have h1 : 0 < (data.filter (fun s => s.event_name = e)).length :=
      lt_of_lt_of_le hm h
    obtain ⟨s, hs⟩ := List.length_pos_iff_exists_mem.mp h1
    have hs' := List.mem_filter.mp hs
    rw [List.mem_dedup]
    exact List.mem_map.mpr ⟨s, hs'.1, by simpa using hs'.2⟩

/-- Three concrete training samples of one event with mixed coordinate
presence, used by witnesses. -/
def sA1 : Sample := ⟨"A", 1, 2, 3, some 1, some 2⟩

/-- Second concrete sample: lacks coordinates. -/
def sA2 : Sample := ⟨"A", 2, 3, 4, none, none⟩

/-- Third concrete sample: has coordinates. -/
def sA3 : Sample := ⟨"A", 3, 4, 5, some 3, some 4⟩

/-- A concrete training population of one event with three samples. -/
def dataW : List Sample := [sA1, sA2, sA3]

/-- Witness for C4 at the default minimum support 3. -/
theorem compute_event_centroids_min_support_witness :
    1 ≤ 3 ∧
    ("A" ∈ (compute_event_centroids dataW 3).map Prod.fst ↔ 3 ≤ countEvent "A" dataW) :=
  ⟨by norm_num, compute_event_centroids_min_support dataW 3 "A" (by norm_num)⟩

/-- Claim C5: fitting two predictors on the same training population with
thresholds `t1 ≤ t2`, on every query: if the `t1`-predictor admits a known
event then the `t2`-predictor returns the same event, and if the
`t2`-predictor rejects then so does the `t1`-predictor — so over any test set
the known-event match rate never decreases and the unknown-rejection rate
never increases as the threshold grows. -/
theorem threshold_monotonicity (P1 P2 : EventSimilarityPredictor) (data : List Sample)
    (fv : FeatureVec) (h12 : P1.distance_threshold ≤ P2.distance_threshold) :
    (((P1.fit data).predict fv).1 ≠ none →
      ((P2.fit data).predict fv).1 = ((P1.fit data).predict fv).1) ∧
    (((P2.fit data).predict fv).1 = none → ((P1.fit data).predict fv).1 = none) := by
  rcases hloop : nearestLoop (fitScaler data) fv
    (compute_event_centroids data MIN_SAMPLES_PER_EVENT) (none, none) with ⟨b, mo⟩
  cases mo with
  | none =>
    have hp1 := predict_of_loop_none (P1.fit data) fv b hloop
    have hp2 := predict_of_loop_none (P2.fit data) fv b hloop
    rw [hp1, hp2]
    exact ⟨fun h => absurd rfl h, fun _ => rfl⟩
  | some m =>
    have hp1 := predict_of_loop (P1.fit data) fv b m hloop
    have hp2 := predict_of_loop (P2.fit data) fv b m hloop
    constructor
    · intro hne
      by_cases hm1 : m ≤ (P1.fit data).distance_threshold
      · have hm2 : m ≤ (P2.fit data).distance_threshold := le_trans hm1 h12
        rw [hp1, if_pos hm1, hp2, if_pos hm2]
      · rw [hp1, if_neg hm1] at hne
        exact absurd rfl hne
    · intro h2none
      by_cases hm2 : m ≤ (P2.fit data).distance_threshold
      · rw [hp2, if_pos hm2] at h2none
        have hb : b = none := h2none
        rw [hp1]
        by_cases hm1 : m ≤ (P1.fit data).distance_threshold
        · rw [if_pos hm1]
          exact hb
        · rw [if_neg hm1]
      · have hm1 : ¬ m ≤ (P1.fit data).distance_threshold :=
          fun h => hm2 (le_trans h h12)
        rw [hp1, if_neg hm1]

/-- A concrete predictor constructed at threshold 0.2. -/
noncomputable def predLo : EventSimilarityPredictor := ⟨[], scalerW, 0.2⟩

/-- A concrete predictor constructed at threshold 0.4. -/
noncomputable def predHi : EventSimilarityPredictor := ⟨[], scalerW, 0.4⟩

/-- Witness for C5 on the concrete population with thresholds 0.2 ≤ 0.4. -/
theorem threshold_monotonicity_witness :
    predLo.distance_threshold ≤ predHi.distance_threshold ∧
    ((((predLo.fit dataW).predict fvW).1 ≠ none →
      ((predHi.fit dataW).predict fvW).1 = ((predLo.fit dataW).predict fvW).1) ∧
     (((predHi.fit dataW).predict fvW).1 = none →
      ((predLo.fit dataW).predict fvW).1 = none)) :=
  ⟨by show (0.2 : ℝ) ≤ 0.4; norm_num,
   threshold_monotonicity predLo predHi dataW fvW (by show (0.2 : ℝ) ≤ 0.4; norm_num)⟩

/-- Claim C6: for every admitted prediction (returned event not `none`) of a
predictor with positive threshold, the returned confidence lies in `[0, 1]`,
equals 1 exactly when the returned distance is 0, and equals 0 when the
returned distance equals the threshold. -/
theorem confidence_bounds (P : EventSimilarityPredictor) (fv : FeatureVec)
    (ht : 0 < P.distance_threshold) :
    (P.predict fv).1 ≠ none →
      0 ≤ (P.predict fv).2.2 ∧ (P.predict fv).2.2 ≤ 1 ∧
      ((P.predict fv).2.2 = 1 ↔ (P.predict fv).2.1 = some 0) ∧
      ((P.predict fv).2.1 = some P.distance_threshold → (P.predict fv).2.2 = 0) := by
  intro hne
  rcases hloop : nearestLoop P.scaler fv P.centroids (none, none) with ⟨b, mo⟩
  cases mo with
  | none =>
    rw [predict_of_loop_none P fv b hloop] at hne
    exact absurd rfl hne
  | some m =>
    have hp := predict_of_loop P fv b m hloop
    by_cases hm : m ≤ P.distance_threshold
    · have hm0 : 0 ≤ m := by
        rcases nearestLoop_min_mem P.scaler fv P.centroids (none, none) b m hloop with
          ⟨p, hpmem, hd⟩ | habs
        · rw [← hd]
          exact custom_distance_nonneg _ _ _
        · simp at habs
      have htne : P.distance_threshold ≠ 0 := ne_of_gt ht
      rw [hp, if_pos hm]
      refine ⟨?_, ?_, ?_, ?_⟩
      · show 0 ≤ 1 - m / P.distance_threshold
        have : m / P.distance_threshold ≤ 1 := (div_le_one ht).mpr hm
        linarith
      · show 1 - m / P.distance_threshold ≤ 1
        have : 0 ≤ m / P.distance_threshold := div_nonneg hm0 (le_of_lt ht)
        linarith
      · show 1 - m / P.distance_threshold = 1 ↔ some m = some (0 : ℝ)
        constructor
        · intro h1
          have hdiv : m / P.distance_threshold = 0 := by linarith
          rcases div_eq_zero_iff.mp hdiv with h | h
          · rw [h]
          · exact absurd h htne
        · intro h0
          have hm' : m = 0 := by simpa using h0
          rw [hm']
          simp
      · show some m = some P.distance_threshold → 1 - m / P.distance_threshold = 0
        intro heq
        have hm' : m = P.distance_threshold := by simpa using heq
        rw [hm', div_self htne]
        ring
    · rw [hp, if_neg hm] at hne
      exact absurd rfl hne

/-- Witness for C6 on the concrete admitted prediction of `predW`. -/
theorem confidence_bounds_witness :
    0 < predW.distance_threshold ∧
    ((predW.predict fvW).1 ≠ none →
      0 ≤ (predW.predict fvW).2.2 ∧ (predW.predict fvW).2.2 ≤ 1 ∧
      ((predW.predict fvW).2.2 = 1 ↔ (predW.predict fvW).2.1 = some 0) ∧
      ((predW.predict fvW).2.1 = some predW.distance_threshold →
        (predW.predict fvW).2.2 = 0)) :=
  ⟨by show (0 : ℝ) < 0.4; norm_num,
   confidence_bounds predW fvW (by show (0 : ℝ) < 0.4; norm_num)⟩

/-- When `optMean` is `none`: exactly when no entry is present. -/
lemma optMean_eq_none_iff (xs : List (Option ℝ)) :
    optMean xs = none ↔ xs.filterMap id = [] := by
  simp only [optMean]
  by_cases h : xs.filterMap id = []
  · rw [if_pos h]
    simp [h]
  · rw [if_neg h]
    simp [h]

/-- When some entry is present, `optMean` is the mean over the present
entries. -/
lemma optMean_eq_some (xs : List (Option ℝ)) (h : xs.filterMap id ≠ []) :
    optMean xs = some ((xs.filterMap id).sum / (xs.filterMap id).length) := by
  simp only [optMean]
  rw [if_neg h]

/-- Claim C7: for a retained event group, each spatial mean of its centroid is
`none` iff every sample of the group lacks that coordinate; and as soon as
some sample has it, the mean is the arithmetic mean over exactly the
non-missing samples. -/
theorem centroid_spatial_mean (data : List Sample) (m : Nat) (e : String) (c : Centroid)
    (hmem : (e, c) ∈ compute_event_centroids data m) :
    (c.start_lat = none ↔
      ((data.filter (fun s => s.event_name = e)).map (fun s => s.start_lat)).filterMap id
        = []) ∧
    (((data.filter (fun s => s.event_name = e)).map (fun s => s.start_lat)).filterMap id
        ≠ [] →
      c.start_lat = some
        ((((data.filter (fun s => s.event_name = e)).map
            (fun s => s.start_lat)).filterMap id).sum /
          (((data.filter (fun s => s.event_name = e)).map
            (fun s => s.start_lat)).filterMap id).length)) ∧
    (c.start_lng = none ↔
      ((data.filter (fun s => s.event_name = e)).map (fun s => s.start_lng)).filterMap id
        = []) ∧
    (((data.filter (fun s => s.event_name = e)).map (fun s => s.start_lng)).filterMap id
        ≠ [] →
      c.start_lng = some
        ((((data.filter (fun s => s.event_name = e)).map
            (fun s => s.start_lng)).filterMap id).sum /
          (((data.filter (fun s => s.event_name = e)).map
            (fun s => s.start_lng)).filterMap id).length)) := by
  obtain ⟨e', he', heq⟩ := List.mem_map.mp hmem
  have he2 : e' = e := congrArg Prod.fst heq
  subst he2
  have hc : c = centroidOf (data.filter (fun s => s.event_name = e')) :=
    (congrArg Prod.snd heq).symm
  subst hc
  refine ⟨?_, ?_, ?_, ?_⟩
  · exact optMean_eq_none_iff _
  · intro h
    exact optMean_eq_some _ h
  · exact optMean_eq_none_iff _
  · intro h
    exact optMean_eq_some _ h

/-- Witness for C7: on the concrete mixed-coordinate group, the retained
centroid's spatial means average exactly the two non-missing samples. -/
theorem centroid_spatial_mean_witness :
    (("A", centroidOf (dataW.filter (fun s => s.event_name = "A"))) ∈
      compute_event_centroids dataW 3) ∧
    (centroidOf (dataW.filter (fun s => s.event_name = "A"))).start_lat = some 2 ∧
    (centroidOf (dataW.filter (fun s => s.event_name = "A"))).start_lng = some 3 := by
  have hmem : ("A", centroidOf (dataW.filter (fun s => s.event_name = "A"))) ∈
      compute_event_centroids dataW 3 := by
    simp [compute_event_centroids, wellDefinedEvents, countEvent, dataW, sA1, sA2, sA3]
  have h := centroid_spatial_mean dataW 3 "A" _ hmem
  refine ⟨hmem, ?_, ?_⟩
  · have h2 := h.2.1 (by simp [dataW, sA1, sA2, sA3])
    rw [h2]
    norm_num [dataW, sA1, sA2, sA3, List.filterMap_cons]
  · have h4 := h.2.2.2 (by simp [dataW, sA1, sA2, sA3])
    rw [h4]
    norm_num [dataW, sA1, sA2, sA3, List.filterMap_cons]

/-- Total-model tie-break (valid on states where the scan completes; a
`None`-coordinate centroid in the mapping instead crashes the source mid-scan,
see `predictPy_tie_break_crash`): on exact ties at the minimum composite
distance, `predict` returns the first-encountered minimizing centroid in the
centroid list's iteration order — a centroid at distance `m ≤ threshold`
preceded only by strictly farther centroids and followed by centroids no
closer is the one returned. -/
theorem predict_tie_break_first (P : EventSimilarityPredictor) (fv : FeatureVec)
    (pre post : List (String × Centroid)) (e : String) (c : Centroid) (m : ℝ)
    (hcs : P.centroids = pre ++ (e, c) :: post)
    (hd : custom_distance fv (centroidVector c) P.scaler = m)
    (hpre : ∀ p ∈ pre, m < custom_distance fv (centroidVector p.2) P.scaler)
    (hpost : ∀ p ∈ post, m ≤ custom_distance fv (centroidVector p.2) P.scaler)
    (hthr : m ≤ P.distance_threshold) :
    P.predict fv = (some e, some m, 1 - m / P.distance_threshold) := by
  have hloop : nearestLoop P.scaler fv P.centroids (none, none) = (some e, some m) := by
    rw [hcs]
    exact nearestLoop_first P.scaler fv (e, c) m hd post hpost pre (none, none)
      (Or.inl rfl) hpre
  rw [predict_of_loop P fv (some e) m hloop, if_pos hthr]

/-- A second concrete centroid tied with `cW`, stored under another event. -/
def cW2 : Centroid := ⟨0, 0, 0, none, none, 4⟩

/-- A concrete predictor with two centroids exactly tied at the query. -/
noncomputable def predTie : EventSimilarityPredictor :=
  ⟨[("A", cW), ("B", cW2)], scalerW, 0.4⟩

/-- Concrete instance of the total-model tie-break: both stored centroids are
at distance 0 from the query and `predict` returns the first one. -/
theorem predict_tie_break_first_witness :
    predTie.predict fvW = (some "A", some 0, 1) := by
  have hd : custom_distance fvW (centroidVector cW) predTie.scaler = 0 := distW_eq_zero
  have h := predict_tie_break_first predTie fvW [] [("B", cW2)] "A" cW 0 rfl hd
    (fun p hp => absurd hp (List.not_mem_nil p))
    (fun p _ => custom_distance_nonneg fvW (centroidVector p.2) predTie.scaler)
    (by show (0 : ℝ) ≤ 0.4; norm_num)
  rw [h]
  norm_num

/-- `predict_batch` threads the predictor state through unchanged. -/
lemma predict_batch_snd (rows : List FeatureVec) :
    ∀ P : EventSimilarityPredictor, (predict_batch P rows).2 = P := by
  induction rows with
  | nil =>
    intro P
    rfl
  | cons fv rest ih =>
    intro P
    simp only [predict_batch, predictStep]
    exact ih P

/-- Claim C9: any sequence of `predict` / `predict_batch` calls leaves the
predictor state — centroid mapping, fitted scaler parameters and threshold —
exactly as it was. -/
theorem predict_state_unchanged (P : EventSimilarityPredictor)
    (calls : List PredictorCall) :
    (runCalls P calls).centroids = P.centroids ∧
    (runCalls P calls).scaler = P.scaler ∧
    (runCalls P calls).distance_threshold = P.distance_threshold := by
  have h : ∀ Q : EventSimilarityPredictor, runCalls Q calls = Q := by
    induction calls with
    | nil =>
      intro Q
      rfl
    | cons hd rest ih =>
      intro Q
      cases hd with
      | single fv =>
        simp only [runCalls, predictStep]
        exact ih Q
      | batch rows =>
        simp only [runCalls]
        rw [predict_batch_snd rows Q]
        exact ih Q
  rw [h P]
  exact ⟨rfl, rfl, rfl⟩

/-- A concrete all-missing-coordinates stored centroid: the spatial means are
the stored `None` of `compute_event_centroids` for a retained group all of
whose samples lack coordinates. -/
def cNone : Centroid := ⟨0, 0, 0, none, none, 3⟩

/-- A concrete coordinate-bearing query in the cell model. -/
def qPy : PyFeatureVec := ⟨0, 0, 0, PyCell.val 1, PyCell.val 2⟩

/-- The `None`-encoded coordinates-absent vector that `predict` builds from
`cNone`. -/
def fvAbsentPy : PyFeatureVec := centroidVectorPy cNone

/-- A predictor holding one `None`-coordinate centroid. -/
noncomputable def predNoneCoord : EventSimilarityPredictor :=
  ⟨[("NoCoords", cNone)], scalerW, 0.4⟩

/-- A concrete stored centroid with real coordinates matching `qPy`. -/
def cG : Centroid := ⟨0, 0, 0, some 1, some 2, 3⟩

/-- A predictor with two exactly tied coordinate centroids followed by a
`None`-coordinate centroid. -/
noncomputable def predTieBad : EventSimilarityPredictor :=
  ⟨[("A", cG), ("B", cG), ("NoCoords", cNone)], scalerW, 0.4⟩

/-- One step of the cell-model loop from the initial accumulator on a real
distance. -/
lemma nearestLoopPy_cons_init (s : Scaler) (fv : PyFeatureVec) (p : String × Centroid)
    (rest : List (String × Centroid)) (x : ℝ)
    (hd : custom_distancePy fv (centroidVectorPy p.2) s = Except.ok (PyCell.val x)) :
    nearestLoopPy s fv (p :: rest) (none, none) =
      nearestLoopPy s fv rest (some p.1, some x) := by
  simp only [nearestLoopPy, hd]

/-- One step of the cell-model loop on a real distance against a real
incumbent minimum. -/
lemma nearestLoopPy_cons_some (s : Scaler) (fv : PyFeatureVec) (p : String × Centroid)
    (rest : List (String × Centroid)) (e : String) (m x : ℝ)
    (hd : custom_distancePy fv (centroidVectorPy p.2) s = Except.ok (PyCell.val x)) :
    nearestLoopPy s fv (p :: rest) (some e, some m) =
      if x < m then nearestLoopPy s fv rest (some p.1, some x)
      else nearestLoopPy s fv rest (some e, some m) := by
  simp only [nearestLoopPy, hd]

/-- Claim C3, evidence of the code bug: against a coordinate-bearing vector,
the `None`-encoded coordinates-absent vector that `predict` builds from an
all-missing centroid makes `custom_distance` raise `TypeError` at
`np.isnan(None)` instead of returning the temporal distance alone as the
designed fallback requires. -/
theorem custom_distancePy_none_crash :
    custom_distancePy qPy fvAbsentPy scalerW = Except.error () := rfl

/-- Claim C1, evidence of the code bug: a fitted predictor holding a centroid
whose group had no coordinates crashes `predict` on a coordinate-bearing
query (`TypeError` at `np.isnan(None)`) instead of returning a
`(event, distance, confidence)` triple. -/
theorem predictPy_none_centroid_crash :
    predictPy predNoneCoord qPy = Except.error () := rfl

/-- Claim C8, evidence of the code bug: with two stored centroids exactly
tied at the minimum distance but a `None`-coordinate centroid later in the
iteration order, `predict` on a coordinate-bearing query raises `TypeError`
during the scan instead of returning the first-encountered tied centroid. -/
theorem predictPy_tie_break_crash :
    predictPy predTieBad qPy = Except.error () := by
  have hd : custom_distancePy qPy (centroidVectorPy cG) scalerW =
      Except.ok (PyCell.val (0.5 * temporalDistancePy qPy (centroidVectorPy cG) scalerW +
        0.5 * (haversine_distance 1 2 1 2 / 10))) := rfl
  have h1 : nearestLoopPy scalerW qPy ([("A", cG), ("B", cG), ("NoCoords", cNone)])
      (none, none) = Except.error () := by
    rw [nearestLoopPy_cons_init scalerW qPy ("A", cG) _ _ hd,
      nearestLoopPy_cons_some scalerW qPy ("B", cG) _ _ _ _ hd,
      if_neg (lt_irrefl _)]
    rfl
  show predictPy predTieBad qPy = Except.error ()
  unfold predictPy
  rw [show predTieBad.centroids = [("A", cG), ("B", cG), ("NoCoords", cNone)] from rfl,
    show predTieBad.scaler = scalerW from rfl, h1]

end EventSim
